import Mathlib

/-!
Verification of the bot-debate session orchestrator.

This file gives a shallow embedding of the Go debate server: the in-memory
session manager (`debate.go`: `DebateManager`, `BotLogin`, `HandleSpeech`,
`endDebate`, `generateDebateResult`, the timer callbacks), the persisted
store (`database.go`) and the external judge client (`chatgpt.go`).

Modelling conventions:
* Go maps become association lists keyed by id; Go pointers that may be nil
  become `Option`; the four `time.Timer` handles become `Bool` flags
  (armed / not armed), and creating a fresh timer re-arms the flag.
* Wall-clock readings (`time.Now()`) are threaded in as explicit `Nat`
  arguments; random values (the debate key, the side-assignment coin) are
  explicit parameters.
* Side effects on connections (WriteJSON to a bot, broadcast to the
  frontend channel) are modelled as an emitted `Event` list.
* A Go nil-pointer dereference or out-of-range slice is an explicit
  `panicked` outcome.
* Byte lengths (`len` of a Go string) are modelled by `utf8Len`.
-/

namespace BotDebate

/-- Whitespace recognised when trimming speech content; models the
characters `strings.TrimSpace` removes for the ASCII inputs used here. -/
def isSpaceChar (c : Char) : Bool := c == ' ' || c == '\t' || c == '\n' || c == '\r'

/-- Models `strings.TrimSpace`. -/
def trimSpace (s : String) : String :=
  String.mk (((s.toList.dropWhile isSpaceChar).reverse.dropWhile isSpaceChar).reverse)

/-- Number of UTF-8 bytes a character occupies. -/
def charUtf8Size (c : Char) : Nat :=
  if c.toNat < 0x80 then 1 else if c.toNat < 0x800 then 2 else if c.toNat < 0x10000 then 3 else 4

/-- Models Go `len(s)`: the byte length of a string. -/
def utf8Len (s : String) : Nat := (s.toList.map charUtf8Size).sum

/-- Models the Go slice expression `s[:n]`: `none` when the string has fewer
than `n` bytes (the source panics with an out-of-range slice there). The
`bot_uuid` values sliced in the source are ASCII, where the first `n` bytes
are the first `n` characters. -/
def goSliceTo (s : String) (n : Nat) : Option String :=
  if utf8Len s < n then none else some (String.mk (s.toList.take n))

/-- Models Go `strings.HasPrefix`. -/
def strHasPrefix (s pre : String) : Bool :=
  s.toList.take pre.toList.length == pre.toList

/-- Models Go `strings.TrimPrefix` (for the callers that already checked the
prefix is present). -/
def strDropChars (s : String) (n : Nat) : String := String.mk (s.toList.drop n)

/-- `SpeechMessage` from `models.go`. -/
structure SpeechMessage where
  format : String
  content : String
deriving DecidableEq, Repr

/-- `DebateLogEntry` from `models.go`; the wall-clock `Timestamp` string is
not modelled. -/
structure DebateLogEntry where
  round : Nat
  speaker : String
  side : String
  message : SpeechMessage
deriving DecidableEq, Repr

/-- `Debate` from `models.go`. `createdAt` is a creation-order stamp standing
in for the `created_at` timestamp; `updated_at` is not modelled. -/
structure Debate where
  id : String
  topic : String
  totalRounds : Nat
  currentRound : Nat
  status : String
  createdAt : Nat
deriving DecidableEq, Repr

/-- `Bot` from `models.go` (the `connected_at` timestamp is not modelled). -/
structure Bot where
  botName : String
  botUUID : String
  botIdentifier : String
  debateID : String
  debateKey : String
  side : String
deriving DecidableEq, Repr

/-- `ConnectedBot` from `debate.go`; `connected` models `Conn != nil`. -/
structure ConnectedBot where
  bot : Bot
  connected : Bool
deriving DecidableEq, Repr

/-- `DebateResult` from `models.go`. Scores are Go `int`s. -/
structure DebateResult where
  winner : String
  supportingScore : Int
  opposingScore : Int
  summary : SpeechMessage
  reason : String := ""
deriving DecidableEq, Repr

/-- `ErrorMessage` from `models.go` (the optional `Details` field is never
set by the handlers modelled here). -/
structure ErrorMessage where
  errorCode : String
  message : String
  debateID : String := ""
  recoverable : Bool
deriving DecidableEq, Repr

/-- `LoginRequest` from `models.go` (the optional `Version` field is unused
by the server). -/
structure LoginRequest where
  botName : String
  botUUID : String
  debateID : String
deriving DecidableEq, Repr

/-- `LoginConfirmed` from `models.go`. -/
structure LoginConfirmed where
  status : String
  message : String
  debateID : String
  debateKey : String
  botIdentifier : String
  topic : String
  joinedBots : List String
deriving DecidableEq, Repr

/-- `LoginRejected` from `models.go`. `retryAfter = 0` models the omitted
`retry_after` field. -/
structure LoginRejected where
  status : String
  reason : String
  message : String
  debateID : String := ""
  retryAfter : Nat := 0
deriving DecidableEq, Repr

/-- `DebateSpeech` from `models.go`. -/
structure DebateSpeech where
  debateID : String
  debateKey : String
  speaker : String
  message : SpeechMessage
deriving DecidableEq, Repr

/-- `ActiveDebate` from `debate.go`. Timers are armed-flags; `lastActivityTime`
models the `LastActivityTime` wall-clock field. Frontend connections and the
`StartTime` field play no role in the verified claims and are omitted. -/
structure ActiveDebate where
  debate : Debate
  botA : Option ConnectedBot := none
  botB : Option ConnectedBot := none
  supportingBot : Option ConnectedBot := none
  opposingBot : Option ConnectedBot := none
  debateLog : List DebateLogEntry := []
  lastSpeaker : String := ""
  waitingTimer : Bool := false
  timeoutTimer : Bool := false
  inactivityTimer : Bool := false
  maxDurationTimer : Bool := false
  lastActivityTime : Nat := 0
deriving DecidableEq, Repr

/-- The `debate` section of `Config` from `config.go`, with the defaults
`LoadConfig` installs. -/
structure Config where
  speechTimeout : Nat := 120
  inactivityTimeout : Nat := 1800
  maxDuration : Nat := 3600
  minContentLength : Nat := 50
  maxContentLength : Nat := 2000
deriving DecidableEq, Repr

/-- The persisted store from `database.go`. Tables are association lists in
insertion order; `debates` in creation order (so `created_at` ordering is the
list order refined by the `createdAt` stamp). -/
structure DB where
  debates : List Debate := []
  bots : List Bot := []
  debateLogs : List (String × DebateLogEntry) := []
  results : List (String × DebateResult) := []
deriving DecidableEq, Repr

/-- `Database.CreateDebate`. -/
def DB.createDebate (db : DB) (d : Debate) : DB :=
  { db with debates := db.debates ++ [d] }

/-- `Database.GetDebate` (a missing row is the `sql` error the caller treats
as not-found). -/
def DB.getDebate (db : DB) (id : String) : Option Debate :=
  db.debates.find? (fun d => d.id == id)

/-- `Database.UpdateDebateStatus`. -/
def DB.updateDebateStatus (db : DB) (id status : String) : DB :=
  { db with debates := db.debates.map (fun d => if d.id == id then { d with status := status } else d) }

/-- `Database.UpdateDebateRound`. -/
def DB.updateDebateRound (db : DB) (id : String) (round : Nat) : DB :=
  { db with debates := db.debates.map (fun d => if d.id == id then { d with currentRound := round } else d) }

/-- `Database.AddBot`. -/
def DB.addBot (db : DB) (b : Bot) : DB :=
  { db with bots := db.bots ++ [b] }

/-- `Database.UpdateBotSide`. -/
def DB.updateBotSide (db : DB) (id ident side : String) : DB :=
  { db with bots := db.bots.map (fun b =>
      if b.debateID == id && b.botIdentifier == ident then { b with side := side } else b) }

/-- `Database.AddDebateLog`. -/
def DB.addDebateLog (db : DB) (id : String) (e : DebateLogEntry) : DB :=
  { db with debateLogs := db.debateLogs ++ [(id, e)] }

/-- `Database.SaveDebateResult`: a plain INSERT into `debate_results`, whose
`debate_id` column is the PRIMARY KEY, so a second insert for the same id
fails the constraint and leaves the first row in place (the caller ignores
the returned error). -/
def DB.saveDebateResult (db : DB) (id : String) (r : DebateResult) : DB :=
  if db.results.any (fun p => p.1 == id) then db
  else { db with results := db.results ++ [(id, r)] }

/-- Rows of `debate_results` for one debate id. -/
def DB.resultsFor (db : DB) (id : String) : List (String × DebateResult) :=
  db.results.filter (fun p => p.1 == id)

/-- Number of `bots` rows for a debate, the `bot_count` of the
`GetAvailableDebate` subquery. -/
def DB.botCount (db : DB) (id : String) : Nat :=
  (db.bots.filter (fun b => b.debateID == id)).length

/-- One comparison step of `pickOldest`. -/
def pickStep (acc : Option Debate) (d : Debate) : Option Debate :=
  match acc with
  | none => some d
  | some best => if d.createdAt < best.createdAt then some d else some best

/-- Selects the row with the least `createdAt` (first such row on ties),
modelling `ORDER BY created_at ASC LIMIT 1`. -/
def pickOldest (l : List Debate) : Option Debate :=
  l.foldl pickStep none

/-- `Database.GetAvailableDebate`: the oldest `waiting` debate with fewer
than 2 registered bots, if any. -/
def DB.getAvailableDebate (db : DB) : Option Debate :=
  pickOldest (db.debates.filter (fun d => d.status == "waiting" && decide (db.botCount d.id < 2)))

/-- Lookup in the `dm.debates` map (association list by debate id). -/
def getEntry : List (String × ActiveDebate) → String → Option ActiveDebate
  | [], _ => none
  | p :: rest, id => if p.1 == id then some p.2 else getEntry rest id

/-- Insert-or-replace in the `dm.debates` map. -/
def setEntry : List (String × ActiveDebate) → String → ActiveDebate → List (String × ActiveDebate)
  | [], id, ad => [(id, ad)]
  | p :: rest, id, ad => if p.1 == id then (id, ad) :: rest else p :: setEntry rest id ad

/-- `delete(dm.debates, id)`. -/
def delEntry : List (String × ActiveDebate) → String → List (String × ActiveDebate)
  | [], _ => []
  | p :: rest, id => if p.1 == id then delEntry rest id else p :: delEntry rest id

/-- `DebateManager` from `debate.go`: the live-session registry plus the
store handle. -/
structure DebateManager where
  debates : List (String × ActiveDebate) := []
  db : DB := {}
deriving DecidableEq, Repr

/-- `dm.debates[id]` map read. -/
def DebateManager.lookup (dm : DebateManager) (id : String) : Option ActiveDebate :=
  getEntry dm.debates id

/-- `dm.debates[id] = ad` map write. -/
def DebateManager.setDebate (dm : DebateManager) (id : String) (ad : ActiveDebate) : DebateManager :=
  { dm with debates := setEntry dm.debates id ad }

/-- `delete(dm.debates, id)`. -/
def DebateManager.removeDebate (dm : DebateManager) (id : String) : DebateManager :=
  { dm with debates := delEntry dm.debates id }

/-- Observable connection effects: a WriteJSON to one bot, the broadcast
channel send to the frontend, or the `go dm.startDebate(id)` spawn. -/
inductive Event where
  | botMsg (botIdentifier msgType : String)
  | broadcastMsg (debateID msgType : String)
  | asyncStartDebate (debateID : String)
deriving DecidableEq, Repr

/-- Occurrences of one event in a trace. -/
def countEvent (evs : List Event) (e : Event) : Nat :=
  (evs.filter (fun x => x == e)).length

/-- The decoded judge reply (`judgeData` in `chatgpt.go`). Scores are Go
`int`s, so out-of-range JSON numbers (including negatives) are representable. -/
structure JudgeData where
  winner : String
  supportingScore : Int
  opposingScore : Int
  summary : String
deriving DecidableEq, Repr

/-- `ChatGPTClient.parseJudgeResponse`: extract the text between the first
`U+007B` and the last `U+007D`, JSON-decode it (the decode step is the
`decode` parameter, since JSON unmarshalling is external), then clamp
out-of-range scores to 50 and an unknown winner to `draw`. `none` is the
error return. (When the first opening brace lies after the last closing
brace the source would panic slicing; that case yields an empty candidate
string here and is not exercised by any claim.) -/
def parseJudgeResponse (decode : String → Option JudgeData) (response : String) :
    Option DebateResult :=
  let lbrace : Char := Char.ofNat 123
  let rbrace : Char := Char.ofNat 125
  let cs := response.toList
  match cs.findIdx? (fun c => c == lbrace), cs.reverse.findIdx? (fun c => c == rbrace) with
  | some startIdx, some revIdx =>
    let endIdx := cs.length - 1 - revIdx
    let jsonStr := String.mk ((cs.drop startIdx).take (endIdx + 1 - startIdx))
    match decode jsonStr with
    | none => none
    | some judgeData =>
      let supportingScore :=
        if judgeData.supportingScore < 0 ∨ 100 < judgeData.supportingScore then 50
        else judgeData.supportingScore
      let opposingScore :=
        if judgeData.opposingScore < 0 ∨ 100 < judgeData.opposingScore then 50
        else judgeData.opposingScore
      let winner :=
        if judgeData.winner ≠ "supporting" ∧ judgeData.winner ≠ "opposing" ∧
            judgeData.winner ≠ "draw" then "draw"
        else judgeData.winner
      some { winner := winner, supportingScore := supportingScore,
             opposingScore := opposingScore,
             summary := { format := "markdown", content := judgeData.summary } }
  | _, _ => none

/-- `ChatGPTClient.JudgeDebate`. `send` is the outcome of the network call
`SendMessage` (the prompt built from the transcript does not influence the
control flow modelled here). When parsing the reply fails, the client itself
substitutes a neutral draw result and reports success. -/
def JudgeDebate (decode : String → Option JudgeData) (send : Except String String) :
    Except String DebateResult :=
  match send with
  | .error e => .error ("failed to get judge response: " ++ e)
  | .ok response =>
    match parseJudgeResponse decode response with
    | some result => .ok result
    | none =>
      .ok { winner := "draw", supportingScore := 50, opposingScore := 50,
            summary := { format := "markdown",
                         content := "## AI评判结果\n\n" ++ response ++
                           "\n\n注意: 自动解析失败，以原始回复为准。" } }

/-- The judge environment: whether `chatgptClient` is non-nil, the JSON
decoder for its reply, and the network outcome of the judging call. -/
structure JudgeEnv where
  enabled : Bool
  decode : String → Option JudgeData
  send : Except String String

/-- The judge environment of a run with `chatgptClient == nil`. -/
def noJudge : JudgeEnv :=
  { enabled := false, decode := fun _ => none, send := .error "disabled" }

/-- Supporting-side utterance count (`supportingCount` in
`generateDebateResult`: entries whose side equals `supporting`). -/
def countSupporting (log : List DebateLogEntry) : Nat :=
  (log.filter (fun e => e.side == "supporting")).length

/-- Opposing-side utterance count (`opposingCount`: every entry whose side is
not `supporting`, per the `else` branch of the counting loop). -/
def countOpposing (log : List DebateLogEntry) : Nat :=
  (log.filter (fun e => !(e.side == "supporting"))).length

/-- `getReasonDescription` from `debate.go` (the two bot-identifier
parameters of the source are unused by every branch and omitted). -/
def getReasonDescription (cfg : Config) (reason : String) : String :=
  if reason == "completed" then "辩论正常完成"
  else if reason == "speech_timeout" then
    "发言超时（Bot 未在 " ++ toString cfg.speechTimeout ++ " 秒内发言）"
  else if reason == "inactivity_timeout" then
    "长时间无活动（超过 " ++ toString cfg.inactivityTimeout ++ " 秒无新发言）"
  else if reason == "max_duration_timeout" then
    "辩论时长超过限制（超过 " ++ toString cfg.maxDuration ++ " 秒）"
  else if strHasPrefix reason "bot_disconnected_" then
    "Bot " ++ strDropChars reason ("bot_disconnected_".toList.length) ++ " 断开连接"
  else if strHasPrefix reason "heartbeat_timeout_" then
    "Bot " ++ strDropChars reason ("heartbeat_timeout_".toList.length) ++
      " 心跳超时（连续 3 次未响应 pong）"
  else reason

/-- `generateDebateResult` from `debate.go`: the AI judge is consulted only
when the client exists, both bots are present and both sides have spoken; a
successful judge call is returned as-is, and every other case falls back to
the deterministic scorer. -/
def generateDebateResult (cfg : Config) (env : JudgeEnv) (ad : ActiveDebate)
    (status reason : String) : DebateResult :=
  let supportingCount := countSupporting ad.debateLog
  let opposingCount := countOpposing ad.debateLog
  let aiResult : Option DebateResult :=
    match ad.supportingBot, ad.opposingBot with
    | some _, some _ =>
      if env.enabled = true ∧ 0 < supportingCount ∧ 0 < opposingCount then
        match JudgeDebate env.decode env.send with
        | .ok r => some r
        | .error _ => none
      else none
    | _, _ => none
  match aiResult with
  | some r => r
  | none =>
    let supportingScore := 45 + supportingCount * 2
    let opposingScore := 45 + opposingCount * 2
    let supportingScore := if 50 < supportingScore then 50 else supportingScore
    let opposingScore := if 50 < opposingScore then 50 else opposingScore
    let total := supportingScore + opposingScore
    let supportingScore := supportingScore * 100 / total
    let opposingScore := 100 - supportingScore
    let winner : String :=
      if 0 < supportingCount ∧ 0 < opposingCount then
        if opposingScore + 5 < supportingScore then "supporting"
        else if supportingScore + 5 < opposingScore then "opposing"
        else "none"
      else "none"
    let supportingID := match ad.supportingBot with
      | some sup => sup.bot.botIdentifier
      | none => "未连接"
    let opposingID := match ad.opposingBot with
      | some op => op.bot.botIdentifier
      | none => "未连接"
    let reasonDesc := getReasonDescription cfg reason
    let summary : String :=
      if status == "timeout" && (supportingCount == 0 && opposingCount == 0) then
        "## 辩论超时\n\n**辩题**: " ++ ad.debate.topic ++
        "\n\n### 正方: " ++ supportingID ++ "\n状态: 未发言\n\n### 反方: " ++ opposingID ++
        "\n状态: 未发言\n\n### 结果\n辩论因超时而结束，双方均未发言。\n\n**结束原因**: " ++
        reasonDesc ++ "\n\n**获胜方**: 无"
      else if status == "timeout" && (supportingCount == 0 || opposingCount == 0) then
        "## 辩论超时\n\n**辩题**: " ++ ad.debate.topic ++
        "\n\n### 正方 (" ++ supportingID ++ ")\n- 发言次数: " ++ toString supportingCount ++
        "\n\n### 反方 (" ++ opposingID ++ ")\n- 发言次数: " ++ toString opposingCount ++
        "\n\n### 结果\n辩论因超时而结束，仅有一方发言，无法进行完整评判。\n\n**结束原因**: " ++
        reasonDesc ++ "\n\n**获胜方**: 无"
      else
        "## 辩论总结\n\n**辩题**: " ++ ad.debate.topic ++
        "\n\n### 正方 (" ++ supportingID ++ ")\n- 发言次数: " ++ toString supportingCount ++
        "\n- 得分: " ++ toString supportingScore ++
        "\n\n### 反方 (" ++ opposingID ++ ")\n- 发言次数: " ++ toString opposingCount ++
        "\n- 得分: " ++ toString opposingScore ++
        "\n\n### 结果\n**获胜方**: " ++ winner ++
        "\n\n注: 使用简单计分规则，ChatGPT评判不可用。\n\n感谢两位选手的精彩辩论！"
    { winner := winner,
      supportingScore := (supportingScore : Int),
      opposingScore := (opposingScore : Int),
      summary := { format := "markdown", content := summary },
      reason := reason }

/-- `endDebate` from `debate.go`: stop all timers, set the terminal status
in store and memory, synthesize and save the result, notify both connected
bots and broadcast `debate_end`. Note there is no check of the current
status before acting. -/
def endDebate (cfg : Config) (env : JudgeEnv) (dm : DebateManager)
    (debateID status reason : String) : DebateManager × List Event :=
  match dm.lookup debateID with
  | none => (dm, [])
  | some ad =>
    let ad := { ad with waitingTimer := false, timeoutTimer := false,
                        inactivityTimer := false, maxDurationTimer := false }
    let dm := { dm with db := dm.db.updateDebateStatus debateID status }
    let ad := { ad with debate := { ad.debate with status := status } }
    let result := generateDebateResult cfg env ad status reason
    let dm := { dm with db := dm.db.saveDebateResult debateID result }
    let events :=
      (match ad.supportingBot with
       | some sup => if sup.connected then [Event.botMsg sup.bot.botIdentifier "debate_end"] else []
       | none => []) ++
      (match ad.opposingBot with
       | some op => if op.connected then [Event.botMsg op.bot.botIdentifier "debate_end"] else []
       | none => []) ++
      [Event.broadcastMsg debateID "debate_end"]
    (dm.setDebate debateID ad, events)

/-- `getNextSpeaker` from `debate.go`. `none` models the nil dereference the
source performs when the needed bot slot is unset. -/
def getNextSpeaker (ad : ActiveDebate) : Option String :=
  match ad.supportingBot with
  | none => none
  | some sup =>
    if ad.lastSpeaker == "" then some sup.bot.botIdentifier
    else if ad.lastSpeaker == sup.bot.botIdentifier then
      ad.opposingBot.map (fun op => op.bot.botIdentifier)
    else some sup.bot.botIdentifier

/-- Outcome of `HandleSpeech`: the returned `*ErrorMessage` (sent back to the
caller), a nil return (accepted), or a run-time panic in the source. -/
inductive SpeechResult where
  | errMsg (e : ErrorMessage)
  | accepted
  | panicked
deriving DecidableEq, Repr

/-- The `speakerBot` resolution of `HandleSpeech`: the supporting slot when
its identifier matches the claimed speaker, else the opposing slot when its
identifier matches, else nil. -/
def resolveSpeaker (ad : ActiveDebate) (speaker : String) : Option ConnectedBot :=
  if ad.supportingBot.any (fun sup => sup.bot.botIdentifier == speaker) then
    ad.supportingBot
  else if ad.opposingBot.any (fun op => op.bot.botIdentifier == speaker) then
    ad.opposingBot
  else none

/-- `HandleSpeech` from `debate.go`, in source order: registry lookup, debate
key verification, turn check, then — before content-length validation — stop
the speech timer, stamp the activity time and re-arm the inactivity timer;
on acceptance append the transcript entry, update the last speaker, advance
the round after an opposing speech (ending the debate when the round budget
is exceeded), and otherwise push `debate_update` and re-arm the speech
timer. `now` is the `time.Now()` reading. Note there is no session-status
check anywhere on this path. -/
def handleSpeech (cfg : Config) (env : JudgeEnv) (dm : DebateManager)
    (speech : DebateSpeech) (now : Nat) : DebateManager × List Event × SpeechResult :=
  match dm.lookup speech.debateID with
  | none =>
    (dm, [], .errMsg { errorCode := "DEBATE_NOT_FOUND", message := "Debate not found",
                       debateID := speech.debateID, recoverable := false })
  | some ad =>
    match resolveSpeaker ad speech.speaker with
    | none =>
      (dm, [], .errMsg { errorCode := "INVALID_DEBATE_KEY", message := "Invalid debate key",
                         debateID := speech.debateID, recoverable := false })
    | some sb =>
      if sb.bot.debateKey ≠ speech.debateKey then
        (dm, [], .errMsg { errorCode := "INVALID_DEBATE_KEY", message := "Invalid debate key",
                           debateID := speech.debateID, recoverable := false })
      else
        match getNextSpeaker ad with
        | none => (dm, [], .panicked)
        | some expectedSpeaker =>
          if speech.speaker ≠ expectedSpeaker then
            (dm, [], .errMsg { errorCode := "NOT_YOUR_TURN",
                               message := "It\x27s not your turn to speak",
                               debateID := speech.debateID, recoverable := true })
          else
            let ad := { ad with timeoutTimer := false,
                                lastActivityTime := now,
                                inactivityTimer := true }
            let dm := dm.setDebate speech.debateID ad
            let contentLen := utf8Len (trimSpace speech.message.content)
            if contentLen < cfg.minContentLength then
              (dm, [], .errMsg { errorCode := "CONTENT_TOO_SHORT",
                                 message := "Speech content too short (minimum " ++
                                   toString cfg.minContentLength ++ " characters)",
                                 debateID := speech.debateID, recoverable := true })
            else if cfg.maxContentLength < contentLen then
              (dm, [], .errMsg { errorCode := "CONTENT_TOO_LONG",
                                 message := "Speech content too long (maximum " ++
                                   toString cfg.maxContentLength ++ " characters)",
                                 debateID := speech.debateID, recoverable := true })
            else
              let logEntry : DebateLogEntry := { round := ad.debate.currentRound,
                                                 speaker := speech.speaker,
                                                 side := sb.bot.side,
                                                 message := speech.message }
              let ad := { ad with debateLog := ad.debateLog ++ [logEntry],
                                  lastSpeaker := speech.speaker }
              let dm := dm.setDebate speech.debateID ad
              let dm := { dm with db := dm.db.addDebateLog speech.debateID logEntry }
              match ad.supportingBot, ad.opposingBot with
              | some sup, some op =>
                if speech.speaker == sup.bot.botIdentifier then
                  let nextSpeaker := op.bot.botIdentifier
                  let events := [Event.botMsg sup.bot.botIdentifier "debate_update",
                                 Event.botMsg op.bot.botIdentifier "debate_update",
                                 Event.broadcastMsg speech.debateID "debate_update"]
                  let _ := nextSpeaker
                  let ad := { ad with timeoutTimer := true }
                  (dm.setDebate speech.debateID ad, events, .accepted)
                else
                  let ad := { ad with debate :=
                    { ad.debate with currentRound := ad.debate.currentRound + 1 } }
                  let dm := dm.setDebate speech.debateID ad
                  let dm := { dm with db :=
                    dm.db.updateDebateRound speech.debateID ad.debate.currentRound }
                  if ad.debate.totalRounds < ad.debate.currentRound then
                    let r := endDebate cfg env dm speech.debateID "completed" "completed"
                    (r.1, r.2, .accepted)
                  else
                    let nextSpeaker := sup.bot.botIdentifier
                    let events := [Event.botMsg sup.bot.botIdentifier "debate_update",
                                   Event.botMsg op.bot.botIdentifier "debate_update",
                                   Event.broadcastMsg speech.debateID "debate_update"]
                    let _ := nextSpeaker
                    let ad := { ad with timeoutTimer := true }
                    (dm.setDebate speech.debateID ad, events, .accepted)
              | _, _ =>
                -- the source dereferences SupportingBot / OpposingBot here
                (dm, [], .panicked)

/-- Outcome of `BotLogin`: the confirmed/rejected pair, or a run-time panic
in the source. -/
inductive LoginResult where
  | confirmed (c : LoginConfirmed)
  | rejected (r : LoginRejected)
  | panicked
deriving DecidableEq, Repr

/-- `BotLogin` from `debate.go`: auto-assign an available debate when no id
is given; otherwise take the registry entry or load the debate from the
store (rejecting a missing or non-`waiting` stored debate); reject when both
slots are filled; then derive the display identifier from the name and the
first 8 bytes of the uuid (an out-of-range slice when the uuid is shorter),
register the bot, fill the first free slot, broadcast the waiting state and
spawn `startDebate` once both slots are filled. `freshKey` is the generated
debate key; the store insert of the bot is assumed to succeed (its
`internal_error` branch is unreachable in this model). -/
def botLogin (dm : DebateManager) (req : LoginRequest) (freshKey : String) :
    DebateManager × List Event × LoginResult :=
  let assigned : Sum String LoginRejected :=
    if req.debateID == "" then
      match dm.db.getAvailableDebate with
      | none => Sum.inr { status := "rejected", reason := "no_available_debate",
                          message := "No available debates found. Please create a debate first or specify a debate_id." }
      | some availableDebate => Sum.inl availableDebate.id
    else Sum.inl req.debateID
  match assigned with
  | Sum.inr r => (dm, [], .rejected r)
  | Sum.inl debateID =>
    let loaded : Sum (DebateManager × ActiveDebate) LoginRejected :=
      match dm.lookup debateID with
      | some ad => Sum.inl (dm, ad)
      | none =>
        match dm.db.getDebate debateID with
        | none => Sum.inr { status := "rejected", reason := "debate_not_found",
                            message := "Debate not found", debateID := debateID }
        | some debate =>
          if debate.status ≠ "waiting" then
            Sum.inr { status := "rejected", reason := "debate_not_ready",
                      message := "Debate not ready yet, try later",
                      debateID := debateID, retryAfter := 5 }
          else
            let ad : ActiveDebate := { debate := debate }
            Sum.inl (dm.setDebate debateID ad, ad)
    match loaded with
    | Sum.inr r => (dm, [], .rejected r)
    | Sum.inl (dm, ad) =>
      if ad.botA.isSome ∧ ad.botB.isSome then
        (dm, [], .rejected { status := "rejected", reason := "debate_full",
                             message := "Debate already has two bots", debateID := debateID })
      else
        match goSliceTo req.botUUID 8 with
        | none => (dm, [], .panicked)
        | some uuidPrefix =>
          let botIdentifier := req.botName ++ "-" ++ uuidPrefix
          let bot : Bot := { botName := req.botName, botUUID := req.botUUID,
                             botIdentifier := botIdentifier, debateID := debateID,
                             debateKey := freshKey, side := "" }
          let dm := { dm with db := dm.db.addBot bot }
          let connectedBot : ConnectedBot := { bot := bot, connected := true }
          let ad := if ad.botA.isNone then { ad with botA := some connectedBot }
                    else { ad with botB := some connectedBot }
          let dm := dm.setDebate debateID ad
          let joinedBots :=
            (match ad.botA with
             | some a => if a.bot.botIdentifier ≠ botIdentifier then [a.bot.botIdentifier] else []
             | none => []) ++
            (match ad.botB with
             | some b => if b.bot.botIdentifier ≠ botIdentifier then [b.bot.botIdentifier] else []
             | none => [])
          let confirmed : LoginConfirmed := { status := "confirmed",
                                              message := "Wait for other bot",
                                              debateID := debateID, debateKey := freshKey,
                                              botIdentifier := botIdentifier,
                                              topic := ad.debate.topic,
                                              joinedBots := joinedBots }
          let events := [Event.broadcastMsg debateID "debate_waiting"] ++
            (if ad.botA.isSome ∧ ad.botB.isSome then [Event.asyncStartDebate debateID] else [])
          (dm, events, .confirmed confirmed)

/-- `CreateDebate` from `debate.go`: persist a fresh `waiting` debate with
round counter 1, register it live, and arm the waiting timer. `freshID` is
the generated id and `now` the creation stamp. -/
def createDebate (dm : DebateManager) (topic : String) (totalRounds : Nat)
    (freshID : String) (now : Nat) : DebateManager × Debate :=
  let debate : Debate := { id := freshID, topic := topic, totalRounds := totalRounds,
                           currentRound := 1, status := "waiting", createdAt := now }
  let dm := { dm with db := dm.db.createDebate debate }
  let ad : ActiveDebate := { debate := debate }
  let dm := dm.setDebate freshID ad
  let dm := dm.setDebate freshID { ad with waitingTimer := true }
  (dm, debate)

/-- `startDebate` from `debate.go` (minus the settling sleep): cancel the
waiting timer, assign sides by the `coin` (the `randomBool()` outcome),
persist sides and the `active` status, notify both bots and the frontend,
reset the last speaker, and arm the speech/inactivity/max-duration timers.
`none` models the nil dereference when a bot slot is empty. -/
def startDebate (dm : DebateManager) (debateID : String) (coin : Bool) (now : Nat) :
    Option (DebateManager × List Event) :=
  match dm.lookup debateID with
  | none => some (dm, [])
  | some ad =>
    let ad := { ad with waitingTimer := false }
    let supSlot := if coin then ad.botA else ad.botB
    let opSlot := if coin then ad.botB else ad.botA
    match supSlot, opSlot with
    | some sup, some op =>
      let sup := { sup with bot := { sup.bot with side := "supporting" } }
      let op := { op with bot := { op.bot with side := "opposing" } }
      let dm := { dm with db := dm.db.updateBotSide debateID sup.bot.botIdentifier "supporting" }
      let dm := { dm with db := dm.db.updateBotSide debateID op.bot.botIdentifier "opposing" }
      let dm := { dm with db := dm.db.updateDebateStatus debateID "active" }
      let ad := { ad with
        supportingBot := some sup, opposingBot := some op,
        botA := if coin then some sup else some op,
        botB := if coin then some op else some sup,
        debate := { ad.debate with status := "active" },
        lastSpeaker := "",
        lastActivityTime := now,
        timeoutTimer := true, inactivityTimer := true, maxDurationTimer := true }
      let events := [Event.botMsg sup.bot.botIdentifier "debate_start",
                     Event.botMsg op.bot.botIdentifier "debate_start",
                     Event.broadcastMsg debateID "debate_start"]
      some (dm.setDebate debateID ad, events)
    | _, _ => none

/-- The waiting-timer callback from `startWaitingTimer`: the only timer
callback with a status guard. A still-`waiting` session is marked `timeout`
in the store and dropped from the live registry; otherwise nothing happens. -/
def waitingTimerFire (dm : DebateManager) (debateID : String) : DebateManager :=
  match dm.lookup debateID with
  | none => dm
  | some ad =>
    if ad.debate.status == "waiting" then
      let dm := { dm with db := dm.db.updateDebateStatus debateID "timeout" }
      let dm := dm.setDebate debateID { ad with debate := { ad.debate with status := "timeout" } }
      dm.removeDebate debateID
    else dm

/-- The speech-timeout callback from `startTimeout`: calls `endDebate`
unconditionally. -/
def speechTimeoutFire (cfg : Config) (env : JudgeEnv) (dm : DebateManager)
    (debateID : String) : DebateManager × List Event :=
  endDebate cfg env dm debateID "timeout" "speech_timeout"

/-- The inactivity-timer callback from `startInactivityTimer`: calls
`endDebate` unconditionally. -/
def inactivityTimerFire (cfg : Config) (env : JudgeEnv) (dm : DebateManager)
    (debateID : String) : DebateManager × List Event :=
  endDebate cfg env dm debateID "timeout" "inactivity_timeout"

/-- The max-duration callback from `startMaxDurationTimer`: calls `endDebate`
unconditionally. -/
def maxDurationTimerFire (cfg : Config) (env : JudgeEnv) (dm : DebateManager)
    (debateID : String) : DebateManager × List Event :=
  endDebate cfg env dm debateID "timeout" "max_duration_timeout"

/-- `HandleBotDisconnect` from `debate.go`: ends the debate only when the
session is currently `active` (the disconnect path is status-guarded). -/
def handleBotDisconnect (cfg : Config) (env : JudgeEnv) (dm : DebateManager)
    (debateID botIdentifier reason : String) : DebateManager × List Event :=
  match dm.lookup debateID with
  | none => (dm, [])
  | some ad =>
    if ad.debate.status == "active" then
      endDebate cfg env dm debateID "timeout" (reason ++ "_" ++ botIdentifier)
    else (dm, [])

/-- Fold a sequence of timed speech submissions through `handleSpeech`. -/
def runSpeeches (cfg : Config) (env : JudgeEnv) (dm : DebateManager)
    (speeches : List (DebateSpeech × Nat)) : DebateManager :=
  speeches.foldl (fun dm p => (handleSpeech cfg env dm p.1 p.2).1) dm


def cfg0 : Config := {}

def botAlpha : Bot := { botName := "alpha", botUUID := "11111111-aaaa",
                        botIdentifier := "alpha-11111111", debateID := "debate-1",
                        debateKey := "key-a", side := "supporting" }

def botBeta : Bot := { botName := "beta", botUUID := "22222222-bbbb",
                       botIdentifier := "beta-22222222", debateID := "debate-1",
                       debateKey := "key-b", side := "opposing" }

def cbAlpha : ConnectedBot := { bot := botAlpha, connected := true }
def cbBeta : ConnectedBot := { bot := botBeta, connected := true }

def mkDebate (status : String) (round total : Nat) : Debate :=
  { id := "debate-1", topic := "T", totalRounds := total, currentRound := round,
    status := status, createdAt := 0 }

def mkSession (status : String) (round total : Nat) (log : List DebateLogEntry)
    (lastSpeaker : String) : ActiveDebate :=
  { debate := mkDebate status round total,
    botA := some cbAlpha, botB := some cbBeta,
    supportingBot := some cbAlpha, opposingBot := some cbBeta,
    debateLog := log, lastSpeaker := lastSpeaker }

def mkManager (ad : ActiveDebate) : DebateManager :=
  { debates := [("debate-1", ad)], db := { debates := [ad.debate] } }

def longContent : String := String.mk (List.replicate 60 'a')

def speechAlpha : DebateSpeech :=
  { debateID := "debate-1", debateKey := "key-a", speaker := "alpha-11111111",
    message := { format := "markdown", content := longContent } }

def speechBeta : DebateSpeech :=
  { debateID := "debate-1", debateKey := "key-b", speaker := "beta-22222222",
    message := { format := "markdown", content := longContent } }

def entryAlpha (round : Nat) : DebateLogEntry :=
  { round := round, speaker := "alpha-11111111", side := "supporting",
    message := { format := "markdown", content := longContent } }

def entryBeta (round : Nat) : DebateLogEntry :=
  { round := round, speaker := "beta-22222222", side := "opposing",
    message := { format := "markdown", content := longContent } }
def shortSpeech : DebateSpeech :=
  { debateID := "debate-1", debateKey := "key-a", speaker := "alpha-11111111",
    message := { format := "markdown", content := "short" } }
def c4Session : ActiveDebate := { mkSession "active" 1 3 [] "" with timeoutTimer := true }
def c2Session : ActiveDebate := mkSession "completed" 2 1 [] ""
def c1Session : ActiveDebate := mkSession "active" 1 3 [entryAlpha 1] "alpha-11111111"
def c3Session : ActiveDebate :=
  mkSession "completed" 2 1 [entryAlpha 1, entryBeta 1] "beta-22222222"
def c7Session : ActiveDebate := mkSession "completed" 2 1 [] ""
def gammaReq : LoginRequest :=
  { botName := "gamma", botUUID := "33333333-cccc", debateID := "debate-1" }
def waitingDB : DB := { debates := [mkDebate "waiting" 1 3] }
def emptyIDReq : LoginRequest :=
  { botName := "gamma", botUUID := "33333333-cccc", debateID := "" }
def nopeReq : LoginRequest :=
  { botName := "gamma", botUUID := "33333333-cccc", debateID := "nope" }
def c8Session : ActiveDebate :=
  mkSession "completed" 2 1 [entryAlpha 1, entryBeta 1] "beta-22222222"
def envMalformed : JudgeEnv := { enabled := true, decode := fun _ => none, send := .ok "hello" }
def braceWrap (s : String) : String :=
  String.mk (Char.ofNat 123 :: s.toList ++ [Char.ofNat 125])
def decodeStub : String → Option JudgeData :=
  fun _ => some { winner := "supporting", supportingScore := 120, opposingScore := -5,
                  summary := "s" }
def envErr : JudgeEnv := { enabled := true, decode := fun _ => none, send := .error "boom" }
def judgeOkResult : DebateResult :=
  { winner := "supporting", supportingScore := 50, opposingScore := 50,
    summary := { format := "markdown", content := "s" } }
def shortUUIDReq : LoginRequest :=
  { botName := "gamma", botUUID := "abc", debateID := "debate-1" }
def c9Manager : DebateManager :=
  { debates := [("debate-1", { debate := mkDebate "waiting" 1 3 })],
    db := { debates := [mkDebate "waiting" 1 3] } }
def c6Manager : DebateManager := mkManager (mkSession "active" 1 1 [] "")
def c6ShortSession : ActiveDebate :=
  { mkSession "active" 1 3 [] "" with
    timeoutTimer := false, lastActivityTime := 7, inactivityTimer := true }
def c6EndSession : ActiveDebate :=
  { mkSession "active" 1 1 [entryAlpha 1] "alpha-11111111" with
    debate := { mkDebate "active" 1 1 with currentRound := 2, status := "completed" },
    debateLog := [entryAlpha 1, entryBeta 1],
    lastSpeaker := "beta-22222222",
    waitingTimer := false, timeoutTimer := false, inactivityTimer := false,
    maxDurationTimer := false, lastActivityTime := 9 }


/-- Writing a registry entry makes it the one found for its id. -/
theorem getEntry_setEntry_self (l : List (String × ActiveDebate)) (id : String)
    (ad : ActiveDebate) : getEntry (setEntry l id ad) id = some ad := by
  induction l with
  | nil => simp [setEntry, getEntry]
  | cons p rest ih =>
    by_cases h : (p.1 == id) = true
    · simp [setEntry, getEntry, h]
    · simp only [setEntry, h]
      simp only [Bool.false_eq_true, if_false]
      simp [getEntry, h, ih]

/-- Registry lookup after `setDebate` on the same id. -/
theorem lookup_setDebate_self (dm : DebateManager) (id : String) (ad : ActiveDebate) :
    (dm.setDebate id ad).lookup id = some ad :=
  getEntry_setEntry_self dm.debates id ad

/-- Replacing only the store handle leaves registry lookups unchanged. -/
theorem lookup_db_update (dm : DebateManager) (db' : DB) (id : String) :
    DebateManager.lookup { dm with db := db' } id = dm.lookup id := rfl


/-- Claim C10: a `debate_speech` sent to an existing session whose supporting
and opposing slots are both unset is rejected with `INVALID_DEBATE_KEY`,
`recoverable = false`, and the manager state is unchanged. -/
theorem speech_unassigned_sides_rejected (cfg : Config) (env : JudgeEnv) (dm : DebateManager)
    (speech : DebateSpeech) (now : Nat) (ad : ActiveDebate)
    (had : dm.lookup speech.debateID = some ad)
    (hsup : ad.supportingBot = none) (hop : ad.opposingBot = none) :
    handleSpeech cfg env dm speech now =
      (dm, [], .errMsg { errorCode := "INVALID_DEBATE_KEY", message := "Invalid debate key",
                         debateID := speech.debateID, recoverable := false }) := by
  simp [handleSpeech, resolveSpeaker, had, hsup, hop]

/-- Witness for the claim C10 theorem at a concrete just-created session. -/
theorem speech_unassigned_sides_rejected_witness :
    handleSpeech cfg0 noJudge { debates := [("debate-1", { debate := mkDebate "waiting" 1 3 })] }
        speechAlpha 5 =
      ({ debates := [("debate-1", { debate := mkDebate "waiting" 1 3 })] }, [],
       .errMsg { errorCode := "INVALID_DEBATE_KEY", message := "Invalid debate key",
                 debateID := "debate-1", recoverable := false }) :=
  speech_unassigned_sides_rejected cfg0 noJudge _ speechAlpha 5 { debate := mkDebate "waiting" 1 3 } rfl rfl rfl


/-- Claim C5: `getNextSpeaker` names the supporting side when no one has
spoken and otherwise the side opposite the last speaker, and a key-valid
`debate_speech` from a bot that is not the expected speaker is answered with
`NOT_YOUR_TURN`, `recoverable = true`, with the state (hence the transcript)
unchanged. -/
theorem next_speaker_and_turn_check :
    (∀ (ad : ActiveDebate) (sup op : ConnectedBot),
       ad.supportingBot = some sup → ad.opposingBot = some op →
       (ad.lastSpeaker = "" → getNextSpeaker ad = some sup.bot.botIdentifier) ∧
       (ad.lastSpeaker = sup.bot.botIdentifier → ad.lastSpeaker ≠ "" →
         getNextSpeaker ad = some op.bot.botIdentifier) ∧
       (ad.lastSpeaker = op.bot.botIdentifier → ad.lastSpeaker ≠ "" →
         op.bot.botIdentifier ≠ sup.bot.botIdentifier →
         getNextSpeaker ad = some sup.bot.botIdentifier)) ∧
    (∀ (cfg : Config) (env : JudgeEnv) (dm : DebateManager) (speech : DebateSpeech)
       (now : Nat) (ad : ActiveDebate) (sb : ConnectedBot) (expectedSpeaker : String),
       dm.lookup speech.debateID = some ad →
       resolveSpeaker ad speech.speaker = some sb →
       sb.bot.debateKey = speech.debateKey →
       getNextSpeaker ad = some expectedSpeaker →
       speech.speaker ≠ expectedSpeaker →
       handleSpeech cfg env dm speech now =
         (dm, [], .errMsg { errorCode := "NOT_YOUR_TURN",
                            message := "It\x27s not your turn to speak",
                            debateID := speech.debateID, recoverable := true })) := by
  constructor
  · intro ad sup op hsup hop
    refine ⟨?_, ?_, ?_⟩
    · intro h
      simp [getNextSpeaker, hsup, h]
    · intro h hne
      rw [h] at hne
      simp [getNextSpeaker, hsup, hop, h, hne]
    · intro h hne hdiff
      rw [h] at hne
      simp [getNextSpeaker, hsup, hop, h, hne, hdiff]
  · intro cfg env dm speech now ad sb expectedSpeaker had hsb hkey hexp hturn
    simp [handleSpeech, had, hsb, hkey, hexp, hturn]

/-- Witness for the claim C5 theorem on concrete sessions. -/
theorem next_speaker_and_turn_check_witness :
    getNextSpeaker (mkSession "active" 1 3 [] "") = some "alpha-11111111" ∧
    getNextSpeaker (mkSession "active" 1 3 [entryAlpha 1] "alpha-11111111") =
      some "beta-22222222" ∧
    getNextSpeaker (mkSession "active" 1 3 [entryAlpha 1, entryBeta 1] "beta-22222222") =
      some "alpha-11111111" ∧
    handleSpeech cfg0 noJudge (mkManager (mkSession "active" 1 3 [] "")) speechBeta 5 =
      (mkManager (mkSession "active" 1 3 [] ""), [],
       .errMsg { errorCode := "NOT_YOUR_TURN", message := "It\x27s not your turn to speak",
                 debateID := "debate-1", recoverable := true }) := by
  refine ⟨?_, ?_, ?_, ?_⟩
  · exact (next_speaker_and_turn_check.1 (mkSession "active" 1 3 [] "") cbAlpha cbBeta rfl rfl).1 rfl
  · exact (next_speaker_and_turn_check.1 (mkSession "active" 1 3 [entryAlpha 1] "alpha-11111111") cbAlpha cbBeta
      rfl rfl).2.1 rfl (by decide)
  · exact (next_speaker_and_turn_check.1 (mkSession "active" 1 3 [entryAlpha 1, entryBeta 1] "beta-22222222")
      cbAlpha cbBeta rfl rfl).2.2 rfl (by decide) (by decide)
  · exact next_speaker_and_turn_check.2 cfg0 noJudge (mkManager (mkSession "active" 1 3 [] "")) speechBeta 5
      (mkSession "active" 1 3 [] "") cbBeta "alpha-11111111" rfl (by decide) rfl rfl (by decide)


/-- Claim C4 (amended): a turn-valid submission that fails the minimum-length
check is rejected recoverably with `CONTENT_TOO_SHORT` and leaves the
transcript and last speaker unchanged, but the speech timer has already been
stopped, the activity time stamped and the inactivity timer re-armed: those
effects happen after the turn check and before content-length validation, not
only on acceptance. -/
theorem length_reject_timer_effects (cfg : Config) (env : JudgeEnv) (dm : DebateManager) (speech : DebateSpeech)
    (now : Nat) (ad : ActiveDebate) (sb : ConnectedBot) (expectedSpeaker : String)
    (had : dm.lookup speech.debateID = some ad)
    (hsb : resolveSpeaker ad speech.speaker = some sb)
    (hkey : sb.bot.debateKey = speech.debateKey)
    (hexp : getNextSpeaker ad = some expectedSpeaker)
    (hturn : speech.speaker = expectedSpeaker)
    (hshort : utf8Len (trimSpace speech.message.content) < cfg.minContentLength) :
    handleSpeech cfg env dm speech now =
      (dm.setDebate speech.debateID
         { ad with timeoutTimer := false, lastActivityTime := now, inactivityTimer := true },
       [],
       .errMsg { errorCode := "CONTENT_TOO_SHORT",
                 message := "Speech content too short (minimum " ++
                   toString cfg.minContentLength ++ " characters)",
                 debateID := speech.debateID, recoverable := true }) := by
  subst hturn
  simp [handleSpeech, had, hsb, hkey, hexp, hshort]



/-- Witness for the claim C4 theorem at a concrete too-short submission. -/
theorem length_reject_timer_effects_witness :
    handleSpeech cfg0 noJudge (mkManager c4Session) shortSpeech 7 =
      ((mkManager c4Session).setDebate "debate-1"
         { c4Session with timeoutTimer := false, lastActivityTime := 7,
                          inactivityTimer := true },
       [],
       .errMsg { errorCode := "CONTENT_TOO_SHORT",
                 message := "Speech content too short (minimum 50 characters)",
                 debateID := "debate-1", recoverable := true }) :=
  length_reject_timer_effects cfg0 noJudge (mkManager c4Session) shortSpeech 7 c4Session cbAlpha
    "alpha-11111111" rfl (by decide) rfl rfl rfl (by decide)

/-- Counterexample to claim C4 as stated: on a session whose speech timer is
armed, a too-short submission is rejected yet the speech timer ends up
cancelled and the activity time updated. -/
theorem length_reject_cancels_timer :
    (mkManager c4Session).lookup "debate-1" = some c4Session ∧
    c4Session.timeoutTimer = true ∧
    ((handleSpeech cfg0 noJudge (mkManager c4Session) shortSpeech 7).1.lookup
      "debate-1").map (fun x => (x.timeoutTimer, x.lastActivityTime)) = some (false, 7) ∧
    (handleSpeech cfg0 noJudge (mkManager c4Session) shortSpeech 7).2.2 =
      .errMsg { errorCode := "CONTENT_TOO_SHORT",
                message := "Speech content too short (minimum 50 characters)",
                debateID := "debate-1", recoverable := true } := by
  refine ⟨rfl, rfl, ?_, ?_⟩ <;> decide


/-- Claim C2 (amended): only the waiting-timer callback is guarded by a
status check (it is a no-op on any non-`waiting` session); `HandleSpeech`
checks no status at all, so a key- and turn-valid speech of legal length
submitted to a session already `completed` or `timeout` is accepted and
appends a transcript entry. -/
theorem terminal_guard_facts :
    (∀ (dm : DebateManager) (id : String) (ad : ActiveDebate),
       dm.lookup id = some ad → ad.debate.status ≠ "waiting" →
       waitingTimerFire dm id = dm) ∧
    (∀ (cfg : Config) (env : JudgeEnv) (dm : DebateManager) (speech : DebateSpeech)
       (now : Nat) (ad : ActiveDebate) (sup op : ConnectedBot),
       dm.lookup speech.debateID = some ad →
       (ad.debate.status = "completed" ∨ ad.debate.status = "timeout") →
       ad.supportingBot = some sup → ad.opposingBot = some op →
       speech.speaker = sup.bot.botIdentifier →
       speech.debateKey = sup.bot.debateKey →
       ad.lastSpeaker = "" →
       cfg.minContentLength ≤ utf8Len (trimSpace speech.message.content) →
       utf8Len (trimSpace speech.message.content) ≤ cfg.maxContentLength →
       (handleSpeech cfg env dm speech now).2.2 = .accepted ∧
       ((handleSpeech cfg env dm speech now).1.lookup speech.debateID).map
           (fun x => (x.debateLog, x.debate.status)) =
         some (ad.debateLog ++
           [{ round := ad.debate.currentRound, speaker := speech.speaker,
              side := sup.bot.side, message := speech.message }],
           ad.debate.status)) := by
  constructor
  · intro dm id ad had hst
    simp [waitingTimerFire, had, hst]
  · intro cfg env dm speech now ad sup op had hterm hsup hop hspeaker hkey hlast hlen1 hlen2
    have hsb : resolveSpeaker ad speech.speaker = some sup := by
      simp [resolveSpeaker, hsup, hspeaker]
    have hexp : getNextSpeaker ad = some sup.bot.botIdentifier := by
      simp [getNextSpeaker, hsup, hlast]
    rw [hspeaker] at hsb
    simp [handleSpeech, had, hsb, hkey, hexp, hspeaker, Nat.not_lt.mpr hlen1,
          Nat.not_lt.mpr hlen2, hsup, hop, lookup_setDebate_self]


/-- Witness for the claim C2 theorem at a concrete completed session. -/
theorem terminal_guard_facts_witness :
    (handleSpeech cfg0 noJudge (mkManager c2Session) speechAlpha 5).2.2 = .accepted ∧
    ((handleSpeech cfg0 noJudge (mkManager c2Session) speechAlpha 5).1.lookup
        "debate-1").map (fun x => (x.debateLog, x.debate.status)) =
      some ([{ round := 2, speaker := "alpha-11111111", side := "supporting",
               message := { format := "markdown", content := longContent } }],
            "completed") := by
  have h := terminal_guard_facts.2 cfg0 noJudge (mkManager c2Session) speechAlpha 5 c2Session
    cbAlpha cbBeta rfl (Or.inl rfl) rfl rfl rfl rfl rfl (by decide) (by decide)
  exact h

/-- Counterexample to claim C2 as stated: a valid speech sent to a
`completed` session is accepted and grows the transcript from 0 to 1
entries. -/
theorem speech_after_terminal_appends :
    (mkManager c2Session).lookup "debate-1" = some c2Session ∧
    c2Session.debate.status = "completed" ∧
    c2Session.debateLog = [] ∧
    (handleSpeech cfg0 noJudge (mkManager c2Session) speechAlpha 5).2.2 = .accepted ∧
    ((handleSpeech cfg0 noJudge (mkManager c2Session) speechAlpha 5).1.lookup
        "debate-1").map (fun x => x.debateLog.length) = some 1 := by
  refine ⟨rfl, rfl, rfl, ?_, ?_⟩ <;> decide


/-- A first result insert for an id appends its row. -/
theorem saveDebateResult_fresh (db : DB) (id : String) (r : DebateResult)
    (h : db.resultsFor id = []) :
    (db.saveDebateResult id r).results = db.results ++ [(id, r)] := by
  simp only [DB.resultsFor] at h
  have hany : db.results.any (fun p => p.1 == id) = false := by
    rw [List.any_eq_false]
    intro x hx hbx
    exact (List.filter_eq_nil_iff.mp h x hx) hbx
  simp [DB.saveDebateResult, hany]

/-- A result insert for an id that already has a row is dropped. -/
theorem saveDebateResult_sticky (db : DB) (id : String) (r : DebateResult)
    (h : db.resultsFor id ≠ []) :
    (db.saveDebateResult id r).results = db.results := by
  simp only [DB.resultsFor] at h
  have hany : db.results.any (fun p => p.1 == id) = true := by
    rcases List.exists_mem_of_ne_nil _ h with ⟨x, hx⟩
    have hmem := List.mem_filter.mp hx
    exact List.any_eq_true.mpr ⟨x, hmem.1, hmem.2⟩
  simp [DB.saveDebateResult, hany]

/-- The session state `endDebate` leaves in the registry. -/
theorem endDebate_lookup (cfg : Config) (env : JudgeEnv) (dm : DebateManager)
    (id status reason : String) (ad : ActiveDebate) (had : dm.lookup id = some ad) :
    (endDebate cfg env dm id status reason).1.lookup id =
      some { ad with waitingTimer := false, timeoutTimer := false, inactivityTimer := false,
                     maxDurationTimer := false,
                     debate := { ad.debate with status := status } } := by
  simp [endDebate, had, lookup_setDebate_self]

/-- Each `endDebate` run on a registered session broadcasts `debate_end` exactly once. -/
theorem endDebate_countEnd (cfg : Config) (env : JudgeEnv) (dm : DebateManager)
    (id status reason : String) (ad : ActiveDebate) (had : dm.lookup id = some ad) :
    countEvent (endDebate cfg env dm id status reason).2
      (Event.broadcastMsg id "debate_end") = 1 := by
  simp only [endDebate, had]
  cases hs : ad.supportingBot <;> cases ho : ad.opposingBot
  all_goals simp [countEvent, List.filter_append]
  all_goals split
  all_goals simp [countEvent]


/-- The first `endDebate` on a session persists exactly its one result row. -/
theorem endDebate_results_fresh (cfg : Config) (env : JudgeEnv) (dm : DebateManager)
    (id status reason : String) (ad : ActiveDebate)
    (had : dm.lookup id = some ad) (hres : dm.db.resultsFor id = []) :
    (endDebate cfg env dm id status reason).1.db.resultsFor id =
      [(id, generateDebateResult cfg env
         { ad with waitingTimer := false, timeoutTimer := false, inactivityTimer := false,
                   maxDurationTimer := false, debate := { ad.debate with status := status } }
         status reason)] := by
  simp only [endDebate, had]
  rw [DebateManager.setDebate]
  simp only [DB.resultsFor] at hres ⊢
  rw [saveDebateResult_fresh]
  · simp [DB.updateDebateStatus, List.filter_append, hres]
  · exact hres

/-- `endDebate` on a session whose result row exists persists nothing new. -/
theorem endDebate_results_preserved (cfg : Config) (env : JudgeEnv) (dm : DebateManager)
    (id status reason : String) (ad : ActiveDebate)
    (had : dm.lookup id = some ad) (hne : dm.db.resultsFor id ≠ []) :
    (endDebate cfg env dm id status reason).1.db.resultsFor id = dm.db.resultsFor id := by
  simp only [endDebate, had]
  rw [DebateManager.setDebate]
  simp only [DB.resultsFor] at hne ⊢
  rw [saveDebateResult_sticky]
  · rfl
  · exact hne

/-- Claim C1 (amended): `endDebate` performs no status check. Invoking it
twice on a registered session persists exactly one result row â only because
the results table’s primary key makes the second insert fail â while each
invocation emits its own `debate_end` broadcast. -/
theorem endDebate_double_invoke (cfg : Config) (env env2 : JudgeEnv) (dm : DebateManager)
    (id status reason status2 reason2 : String) (ad : ActiveDebate)
    (had : dm.lookup id = some ad)
    (hres : dm.db.resultsFor id = []) :
    ((endDebate cfg env2 (endDebate cfg env dm id status reason).1 id
        status2 reason2).1.db.resultsFor id).length = 1 ∧
    countEvent (endDebate cfg env dm id status reason).2
      (Event.broadcastMsg id "debate_end") = 1 ∧
    countEvent (endDebate cfg env2 (endDebate cfg env dm id status reason).1 id
      status2 reason2).2 (Event.broadcastMsg id "debate_end") = 1 := by
  have had1 := endDebate_lookup cfg env dm id status reason ad had
  have hfresh := endDebate_results_fresh cfg env dm id status reason ad had hres
  refine ⟨?_, ?_, ?_⟩
  · rw [endDebate_results_preserved cfg env2 _ id status2 reason2 _ had1 (by rw [hfresh]; simp),
        hfresh]
    rfl
  · exact endDebate_countEnd cfg env dm id status reason ad had
  · exact endDebate_countEnd cfg env2 _ id status2 reason2 _ had1



/-- Witness for the claim C1 theorem at a concrete active session. -/
theorem endDebate_double_invoke_witness :
    ((endDebate cfg0 noJudge (endDebate cfg0 noJudge (mkManager c1Session) "debate-1"
        "timeout" "speech_timeout").1 "debate-1" "timeout"
        "inactivity_timeout").1.db.resultsFor "debate-1").length = 1 ∧
    countEvent (endDebate cfg0 noJudge (mkManager c1Session) "debate-1" "timeout"
      "speech_timeout").2 (Event.broadcastMsg "debate-1" "debate_end") = 1 ∧
    countEvent (endDebate cfg0 noJudge (endDebate cfg0 noJudge (mkManager c1Session)
      "debate-1" "timeout" "speech_timeout").1 "debate-1" "timeout"
      "inactivity_timeout").2 (Event.broadcastMsg "debate-1" "debate_end") = 1 :=
  endDebate_double_invoke cfg0 noJudge noJudge (mkManager c1Session) "debate-1" "timeout" "speech_timeout"
    "timeout" "inactivity_timeout" c1Session rfl rfl

/-- Counterexample to claim C1 as stated: two invocations of `endDebate` on
the same session broadcast `debate_end` twice in total, and the second
invocation is not a no-op. -/
theorem endDebate_double_broadcast :
    countEvent ((endDebate cfg0 noJudge (mkManager c1Session) "debate-1" "timeout"
        "speech_timeout").2 ++
      (endDebate cfg0 noJudge (endDebate cfg0 noJudge (mkManager c1Session) "debate-1"
        "timeout" "speech_timeout").1 "debate-1" "timeout" "speech_timeout").2)
      (Event.broadcastMsg "debate-1" "debate_end") = 2 ∧
    (endDebate cfg0 noJudge (endDebate cfg0 noJudge (mkManager c1Session) "debate-1"
      "timeout" "speech_timeout").1 "debate-1" "timeout" "speech_timeout").2 ≠ [] := by
  refine ⟨?_, ?_⟩ <;> decide


/-- Normalized-score bounds for capped raw scores of sides that spoke. -/
theorem normScore_bounds (S O : Nat) (hS1 : 47 ≤ S) (hS2 : S ≤ 50)
    (hO1 : 47 ≤ O) (hO2 : O ≤ 50) :
    48 ≤ S * 100 / (S + O) ∧ S * 100 / (S + O) ≤ 52 := by
  have hT : 0 < S + O := by omega
  constructor
  · rw [Nat.le_div_iff_mul_le hT]
    omega
  · apply Nat.div_le_of_le_mul
    omega

/-- The normalized supporting score never exceeds 100. -/
theorem normScore_le_100 (S O : Nat) (hO : 0 < O) : S * 100 / (S + O) ≤ 100 := by
  apply Nat.div_le_of_le_mul
  omega

/-- Arithmetic core of the deterministic fallback scorer. -/
theorem fallback_numeric (k m S O : Nat)
    (hS : S = if 50 < 45 + k * 2 then 50 else 45 + k * 2)
    (hO : O = if 50 < 45 + m * 2 then 50 else 45 + m * 2) :
    ((S * 100 / (S + O) : Nat) : Int) =
      ((min (45 + 2 * k) 50 * 100 / (min (45 + 2 * k) 50 + min (45 + 2 * m) 50) : Nat) : Int) ∧
    ((S * 100 / (S + O) : Nat) : Int) + ((100 - S * 100 / (S + O) : Nat) : Int) = 100 ∧
    (if 0 < k ∧ 0 < m then
       if 100 - S * 100 / (S + O) + 5 < S * 100 / (S + O) then "supporting"
       else if S * 100 / (S + O) + 5 < 100 - S * 100 / (S + O) then "opposing"
       else "none"
     else "none") = "none" := by
  have hifk : (if 50 < 45 + k * 2 then 50 else 45 + k * 2) = min (45 + 2 * k) 50 := by
    rw [Nat.min_def]; split_ifs <;> omega
  have hifm : (if 50 < 45 + m * 2 then 50 else 45 + m * 2) = min (45 + 2 * m) 50 := by
    rw [Nat.min_def]; split_ifs <;> omega
  have hO0 : 0 < O := by rw [hO]; split <;> omega
  have hle : S * 100 / (S + O) ≤ 100 := normScore_le_100 S O hO0
  refine ⟨?_, ?_, ?_⟩
  · rw [hS, hO, hifk, hifm]
  · omega
  · by_cases hkm : 0 < k ∧ 0 < m
    · have hS1 : 47 ≤ S := by rw [hS]; split <;> omega
      have hS2 : S ≤ 50 := by rw [hS]; split <;> omega
      have hO1 : 47 ≤ O := by rw [hO]; split <;> omega
      have hO2 : O ≤ 50 := by rw [hO]; split <;> omega
      have hb := normScore_bounds S O hS1 hS2 hO1 hO2
      rw [if_pos hkm, if_neg (by omega), if_neg (by omega)]
    · rw [if_neg hkm]

/-- Claim C3 (amended): under the deterministic fallback (judge client
absent), each side’s raw score is 45 + 2×(utterance count) capped at 50 and
the normalized scores sum to exactly 100; but the fallback never returns
`draw` — the winner variable is initialised to `none`, and with both capped
raw scores in [47,50] the normalized margin never exceeds 5, so the winner is
always `none`. -/
theorem fallback_scorer_spec (cfg : Config) (env : JudgeEnv) (ad : ActiveDebate) (status reason : String)
    (henv : env.enabled = false) :
    (generateDebateResult cfg env ad status reason).supportingScore =
      ((min (45 + 2 * countSupporting ad.debateLog) 50 * 100 /
        (min (45 + 2 * countSupporting ad.debateLog) 50 +
         min (45 + 2 * countOpposing ad.debateLog) 50) : Nat) : Int) ∧
    (generateDebateResult cfg env ad status reason).supportingScore +
      (generateDebateResult cfg env ad status reason).opposingScore = 100 ∧
    (generateDebateResult cfg env ad status reason).winner = "none" := by
  simp only [generateDebateResult, henv]
  cases hs : ad.supportingBot <;> cases ho : ad.opposingBot <;>
    simp only [Bool.false_eq_true, false_and, if_false] <;>
    exact fallback_numeric (countSupporting ad.debateLog) (countOpposing ad.debateLog)
      _ _ rfl rfl



/-- Witness for the claim C3 theorem at a concrete two-speech session. -/
theorem fallback_scorer_spec_witness :
    (generateDebateResult cfg0 noJudge c3Session "completed" "completed").winner = "none" ∧
    (generateDebateResult cfg0 noJudge c3Session "completed" "completed").supportingScore +
      (generateDebateResult cfg0 noJudge c3Session "completed" "completed").opposingScore =
        100 :=
  ⟨(fallback_scorer_spec cfg0 noJudge c3Session "completed" "completed" rfl).2.2,
   (fallback_scorer_spec cfg0 noJudge c3Session "completed" "completed" rfl).2.1⟩

/-- Counterexample to claim C3 as stated: with one utterance per side the
normalized scores are 50–50 (margin 0 with both sides having spoken), yet
the winner is `none`, not `draw`. -/
theorem fallback_no_draw :
    countSupporting c3Session.debateLog = 1 ∧
    countOpposing c3Session.debateLog = 1 ∧
    (generateDebateResult cfg0 noJudge c3Session "completed" "completed").supportingScore = 50 ∧
    (generateDebateResult cfg0 noJudge c3Session "completed" "completed").opposingScore = 50 ∧
    (generateDebateResult cfg0 noJudge c3Session "completed" "completed").winner ≠ "draw" := by
  refine ⟨rfl, rfl, ?_, ?_, ?_⟩ <;> decide


/-- The fold underlying `pickOldest` returns a member of minimal `createdAt`. -/
theorem pickOldest_spec (l : List Debate) (acc : Option Debate) (d : Debate)
    (h : l.foldl pickStep acc = some d) :
    (acc = some d ∨ d ∈ l) ∧
    (∀ a, acc = some a → d.createdAt ≤ a.createdAt) ∧
    (∀ d' ∈ l, d.createdAt ≤ d'.createdAt) := by
  induction l generalizing acc with
  | nil =>
    simp only [List.foldl_nil] at h
    refine ⟨Or.inl h, ?_, by simp⟩
    intro a ha
    rw [h] at ha
    cases Option.some_inj.mp ha
    omega
  | cons x xs ih =>
    simp only [List.foldl_cons] at h
    rcases acc with _ | best
    · simp only [pickStep] at h
      rcases ih (some x) h with ⟨hmem, hacc, hmin⟩
      refine ⟨?_, ?_, ?_⟩
      · rcases hmem with hx | hxs
        · exact Or.inr (List.mem_cons.mpr (Or.inl (Option.some_inj.mp hx.symm)))
        · exact Or.inr (List.mem_cons_of_mem x hxs)
      · intro a ha; cases ha
      · intro d' hd'
        rcases List.mem_cons.mp hd' with rfl | hmem'
        · exact hacc d' rfl
        · exact hmin d' hmem'
    · simp only [pickStep] at h
      by_cases hlt : x.createdAt < best.createdAt
      · rw [if_pos hlt] at h
        rcases ih (some x) h with ⟨hmem, hacc, hmin⟩
        refine ⟨?_, ?_, ?_⟩
        · rcases hmem with hx | hxs
          · exact Or.inr (List.mem_cons.mpr (Or.inl (Option.some_inj.mp hx.symm)))
          · exact Or.inr (List.mem_cons_of_mem x hxs)
        · intro a ha
          cases Option.some_inj.mp ha
          have := hacc x rfl
          omega
        · intro d' hd'
          rcases List.mem_cons.mp hd' with rfl | hmem'
          · exact hacc d' rfl
          · exact hmin d' hmem'
      · rw [if_neg hlt] at h
        rcases ih (some best) h with ⟨hmem, hacc, hmin⟩
        refine ⟨?_, ?_, ?_⟩
        · rcases hmem with hx | hxs
          · exact Or.inl hx
          · exact Or.inr (List.mem_cons_of_mem x hxs)
        · exact hacc
        · intro d' hd'
          rcases List.mem_cons.mp hd' with rfl | hmem'
          · have := hacc best rfl
            omega
          · exact hmin d' hmem'

/-- `GetAvailableDebate` returns a waiting, non-full debate of minimal creation stamp. -/
theorem getAvailableDebate_spec (db : DB) (d : Debate)
    (h : db.getAvailableDebate = some d) :
    d ∈ db.debates ∧ d.status = "waiting" ∧ db.botCount d.id < 2 ∧
    ∀ d' ∈ db.debates, d'.status = "waiting" → db.botCount d'.id < 2 →
      d.createdAt ≤ d'.createdAt := by
  simp only [DB.getAvailableDebate, pickOldest] at h
  rcases pickOldest_spec _ none d h with ⟨hmem, _, hmin⟩
  rcases hmem with hbad | hmem
  · cases hbad
  · have hf := List.mem_filter.mp hmem
    have hside : d.status = "waiting" ∧ db.botCount d.id < 2 := by
      have := hf.2
      simp at this
      exact this
    refine ⟨hf.1, hside.1, hside.2, ?_⟩
    intro d' hd' hst hcnt
    exact hmin d' (List.mem_filter.mpr ⟨hd', by simp [hst, hcnt]⟩)


/-- Claim C7 (amended): with no session id, the oldest `waiting` debate with
fewer than two registered bots is selected and the request is rejected
`no_available_debate` when none exists; a given id that is neither live nor
stored is rejected `debate_not_found`; a stored non-`waiting` debate absent
from the live registry is rejected `debate_not_ready` with a 5-second retry
hint; and a live session with both slots filled is rejected `debate_full`.
The “not ready” rejection exists only on the load-from-store path; a live
non-`waiting` session is instead rejected `debate_full`. -/
theorem join_rejection_spec :
    (∀ (dm : DebateManager) (req : LoginRequest) (freshKey : String),
       req.debateID = "" → dm.db.getAvailableDebate = none →
       (botLogin dm req freshKey).2.2 = .rejected ⟨"rejected", "no_available_debate",
         "No available debates found. Please create a debate first or specify a debate_id.",
         "", 0⟩) ∧
    (∀ (db : DB) (d : Debate), db.getAvailableDebate = some d →
       d ∈ db.debates ∧ d.status = "waiting" ∧ db.botCount d.id < 2 ∧
       ∀ d' ∈ db.debates, d'.status = "waiting" → db.botCount d'.id < 2 →
         d.createdAt ≤ d'.createdAt) ∧
    (∀ (dm : DebateManager) (req : LoginRequest) (freshKey : String),
       req.debateID ≠ "" → dm.lookup req.debateID = none →
       dm.db.getDebate req.debateID = none →
       (botLogin dm req freshKey).2.2 = .rejected ⟨"rejected", "debate_not_found",
         "Debate not found", req.debateID, 0⟩) ∧
    (∀ (dm : DebateManager) (req : LoginRequest) (freshKey : String) (debate : Debate),
       req.debateID ≠ "" → dm.lookup req.debateID = none →
       dm.db.getDebate req.debateID = some debate → debate.status ≠ "waiting" →
       (botLogin dm req freshKey).2.2 = .rejected ⟨"rejected", "debate_not_ready",
         "Debate not ready yet, try later", req.debateID, 5⟩) ∧
    (∀ (dm : DebateManager) (req : LoginRequest) (freshKey : String) (ad : ActiveDebate),
       req.debateID ≠ "" → dm.lookup req.debateID = some ad →
       ad.botA.isSome → ad.botB.isSome →
       (botLogin dm req freshKey).2.2 = .rejected ⟨"rejected", "debate_full",
         "Debate already has two bots", req.debateID, 0⟩) := by
  refine ⟨?_, ?_, ?_, ?_, ?_⟩
  · intro dm req freshKey hempty hnone
    simp [botLogin, hempty, hnone]
  · intro db d h
    exact getAvailableDebate_spec db d h
  · intro dm req freshKey hne hlook hget
    simp [botLogin, hne, hlook, hget]
  · intro dm req freshKey debate hne hlook hget hst
    simp [botLogin, hne, hlook, hget, hst]
  · intro dm req freshKey ad hne hlook hA hB
    simp [botLogin, hne, hlook, hA, hB]



/-- Counterexample to claim C7 as stated: joining a live session whose
status is `completed` (found, not `waiting`) is rejected `debate_full`, not
`debate_not_ready`. -/
theorem join_full_not_notready :
    ((mkManager c7Session).lookup "debate-1").map (fun ad => ad.debate.status) =
      some "completed" ∧
    (botLogin (mkManager c7Session) gammaReq "key-c").2.2 =
      .rejected ⟨"rejected", "debate_full", "Debate already has two bots",
        "debate-1", 0⟩ ∧
    ("debate_full" : String) ≠ "debate_not_ready" := by
  refine ⟨rfl, ?_, ?_⟩ <;> decide




/-- Witness for the claim C7 theorem across its rejection scenarios. -/
theorem join_rejection_spec_witness :
    (botLogin { db := {} } emptyIDReq "key-c").2.2 =
      .rejected ⟨"rejected", "no_available_debate",
        "No available debates found. Please create a debate first or specify a debate_id.",
        "", 0⟩ ∧
    (mkDebate "waiting" 1 3) ∈ waitingDB.debates ∧
    (botLogin { db := {} } nopeReq "key-c").2.2 = .rejected ⟨"rejected", "debate_not_found",
        "Debate not found", "nope", 0⟩ ∧
    (botLogin { db := { debates := [mkDebate "timeout" 1 3] } } gammaReq "key-c").2.2 =
      .rejected ⟨"rejected", "debate_not_ready", "Debate not ready yet, try later",
        "debate-1", 5⟩ ∧
    (botLogin (mkManager c7Session) gammaReq "key-c").2.2 =
      .rejected ⟨"rejected", "debate_full", "Debate already has two bots",
        "debate-1", 0⟩ := by
  refine ⟨?_, ?_, ?_, ?_, ?_⟩
  · exact join_rejection_spec.1 _ _ "key-c" rfl rfl
  · exact (join_rejection_spec.2.1 waitingDB (mkDebate "waiting" 1 3) rfl).1
  · exact join_rejection_spec.2.2.1 _ _ "key-c" (by decide) rfl rfl
  · exact join_rejection_spec.2.2.2.1 _ _ "key-c" (mkDebate "timeout" 1 3) (by decide) rfl rfl (by decide)
  · exact join_rejection_spec.2.2.2.2 _ _ "key-c" c7Session (by decide) rfl rfl rfl


/-- Claim C8 (amended): a successfully parsed judge reply always carries a
winner among `supporting`/`opposing`/`draw` and scores in [0,100]
(out-of-range scores clamp to 50, unknown winners to `draw`); a failed judge
transport call falls back to the deterministic scorer; but malformed judge
output (no JSON object in the reply) is converted by the judge client itself
into a neutral `draw` 50–50 result reported as success, so the deterministic
fallback scorer is not used in that case. -/
theorem judge_validation_and_fallback :
    (∀ (decode : String → Option JudgeData) (response : String) (r : DebateResult),
       parseJudgeResponse decode response = some r →
       (r.winner = "supporting" ∨ r.winner = "opposing" ∨ r.winner = "draw") ∧
       0 ≤ r.supportingScore ∧ r.supportingScore ≤ 100 ∧
       0 ≤ r.opposingScore ∧ r.opposingScore ≤ 100) ∧
    (∀ (cfg : Config) (env : JudgeEnv) (ad : ActiveDebate) (status reason e : String),
       env.send = .error e →
       generateDebateResult cfg env ad status reason =
         generateDebateResult cfg { env with enabled := false } ad status reason) ∧
    (∀ (cfg : Config) (env : JudgeEnv) (ad : ActiveDebate) (status reason response : String)
       (sup op : ConnectedBot),
       ad.supportingBot = some sup → ad.opposingBot = some op →
       env.enabled = true → env.send = .ok response →
       0 < countSupporting ad.debateLog → 0 < countOpposing ad.debateLog →
       response.toList.findIdx? (fun c => c == Char.ofNat 123) = none →
       generateDebateResult cfg env ad status reason =
         { winner := "draw", supportingScore := 50, opposingScore := 50,
           summary := { format := "markdown",
                        content := "## AI评判结果\n\n" ++ response ++
                          "\n\n注意: 自动解析失败，以原始回复为准。" },
           reason := "" }) := by
  refine ⟨?_, ?_, ?_⟩
  · intro decode response r h
    simp only [parseJudgeResponse] at h
    split at h
    · rename_i startIdx revIdx heq1
      split at h
      · cases h
      · rename_i judgeData heq2
        injection h with h
        subst h
        refine ⟨?_, ?_, ?_, ?_, ?_⟩
        · by_cases hw : judgeData.winner ≠ "supporting" ∧ judgeData.winner ≠ "opposing" ∧
              judgeData.winner ≠ "draw"
          · simp [hw]
          · simp only [if_neg hw]
            push_neg at hw
            by_cases h1 : judgeData.winner = "supporting"
            · exact Or.inl h1
            · by_cases h2 : judgeData.winner = "opposing"
              · exact Or.inr (Or.inl h2)
              · exact Or.inr (Or.inr (hw h1 h2))
        · dsimp only
          split <;> omega
        · dsimp only
          split <;> omega
        · dsimp only
          split <;> omega
        · dsimp only
          split <;> omega
    · cases h
  · intro cfg env ad status reason e hsend
    cases hs : ad.supportingBot <;> cases ho : ad.opposingBot <;>
      simp [generateDebateResult, hs, ho, JudgeDebate, hsend]
  · intro cfg env ad status reason response sup op hsup hop hen hsend hk hm hbrace
    simp only [String.toList] at hbrace
    simp [generateDebateResult, hsup, hop, hen, hsend, hk, hm, JudgeDebate,
          parseJudgeResponse, hbrace]



/-- Counterexample to claim C8 as stated: with the judge enabled and
returning the unparseable reply `hello`, the result winner is `draw`, whereas
the deterministic fallback scorer on the same session yields `none`. -/
theorem malformed_judge_draw :
    countSupporting c8Session.debateLog = 1 ∧
    countOpposing c8Session.debateLog = 1 ∧
    (generateDebateResult cfg0 envMalformed c8Session "completed" "completed").winner =
      "draw" ∧
    (generateDebateResult cfg0 noJudge c8Session "completed" "completed").winner = "none" := by
  refine ⟨rfl, rfl, ?_, ?_⟩ <;> decide





/-- Witness for the claim C8 theorem at concrete judge environments. -/
theorem judge_validation_and_fallback_witness :
    ((judgeOkResult.winner = "supporting" ∨ judgeOkResult.winner = "opposing" ∨
        judgeOkResult.winner = "draw") ∧
      0 ≤ judgeOkResult.supportingScore ∧ judgeOkResult.supportingScore ≤ 100 ∧
      0 ≤ judgeOkResult.opposingScore ∧ judgeOkResult.opposingScore ≤ 100) ∧
    (generateDebateResult cfg0 envErr c8Session "completed" "completed").winner = "none" ∧
    (generateDebateResult cfg0 envMalformed c8Session "completed" "completed").winner =
      "draw" := by
  refine ⟨judge_validation_and_fallback.1 decodeStub (braceWrap "x") judgeOkResult (by decide), ?_, ?_⟩
  · rw [judge_validation_and_fallback.2.1 cfg0 envErr c8Session "completed" "completed" "boom" rfl]
    decide
  · rw [judge_validation_and_fallback.2.2 cfg0 envMalformed c8Session "completed" "completed" "hello"
      cbAlpha cbBeta rfl rfl rfl rfl (by decide) (by decide) (by decide)]




/-- Claim C9: `BotLogin` is panic-free whenever the login request’s
`bot_uuid` has at least 8 bytes, and the panic branch — the out-of-range
slice `loginReq.BotUUID[:8]` — is reachable at the login interface: a login
with a 3-byte uuid into an open waiting session reaches it. -/
theorem botLogin_uuid_slice_panic :
    (∀ (dm : DebateManager) (req : LoginRequest) (freshKey : String),
       8 ≤ utf8Len req.botUUID → (botLogin dm req freshKey).2.2 ≠ .panicked) ∧
    utf8Len shortUUIDReq.botUUID < 8 ∧
    (botLogin c9Manager shortUUIDReq "key-c").2.2 = .panicked := by
  refine ⟨?_, by decide, by decide⟩
  intro dm req freshKey hlen
  simp only [botLogin]
  repeat' split
  all_goals simp_all [goSliceTo]


/-- Witness for the claim C9 theorem at a login with a 13-byte uuid. -/
theorem botLogin_uuid_slice_panic_witness :
    (botLogin c9Manager gammaReq "key-c").2.2 ≠ .panicked :=
  botLogin_uuid_slice_panic.1 c9Manager gammaReq "key-c" (by decide)

/-- Registry lookup through a `setDebate` followed by a store write. -/
theorem lookup_setDebate_db (dm : DebateManager) (id : String) (ad : ActiveDebate)
    (db' : DB) :
    DebateManager.lookup { dm.setDebate id ad with db := db' } id = some ad := by
  simp [DebateManager.lookup, DebateManager.setDebate, getEntry_setEntry_self]

/-- When the supporting slot does not match, a resolved speaker is the opposing bot. -/
theorem resolveSpeaker_opposing (ad : ActiveDebate) (sp : String) (sb sup op : ConnectedBot)
    (hsup : ad.supportingBot = some sup) (hop : ad.opposingBot = some op)
    (hres : resolveSpeaker ad sp = some sb)
    (hne : ¬ (sp == sup.bot.botIdentifier) = true) :
    sp = op.bot.botIdentifier ∧ sb = op := by
  rw [resolveSpeaker, hsup, hop] at hres
  have hne' : (sup.bot.botIdentifier == sp) = false := by
    rw [beq_eq_false_iff_ne]
    intro hc
    exact hne (by simp [hc])
  simp only [Option.any_some, hne', Bool.false_eq_true, if_false] at hres
  by_cases hx : (op.bot.botIdentifier == sp) = true
  · rw [if_pos hx] at hres
    exact ⟨(beq_iff_eq.mp hx).symm, (Option.some_inj.mp hres).symm⟩
  · rw [if_neg hx] at hres
    cases hres

/-- How one `HandleSpeech` step can change a session’s round counter and
status: either both are untouched, or an accepted opposing-side speech
increments the round and the status either survives (round still within
budget) or becomes `completed` (budget exceeded). -/
theorem handleSpeech_round_status (cfg : Config) (env : JudgeEnv) (dm : DebateManager)
    (speech : DebateSpeech) (now : Nat) (ad : ActiveDebate)
    (had : dm.lookup speech.debateID = some ad) (ad' : ActiveDebate)
    (h' : (handleSpeech cfg env dm speech now).1.lookup speech.debateID = some ad') :
    ad'.debate.totalRounds = ad.debate.totalRounds ∧
    (ad'.debate.currentRound = ad.debate.currentRound ∧
       ad'.debate.status = ad.debate.status ∨
     ∃ sup op, ad.supportingBot = some sup ∧ ad.opposingBot = some op ∧
       speech.speaker = op.bot.botIdentifier ∧ speech.speaker ≠ sup.bot.botIdentifier ∧
       ad'.debate.currentRound = ad.debate.currentRound + 1 ∧
       (ad.debate.currentRound + 1 ≤ ad.debate.totalRounds ∧
          ad'.debate.status = ad.debate.status ∨
        ad.debate.totalRounds < ad.debate.currentRound + 1 ∧
          ad'.debate.status = "completed")) := by
  revert h'
  simp only [handleSpeech, had]
  rcases hres : resolveSpeaker ad speech.speaker with _ | sb
  · intro h'
    cases Option.some_inj.mp (had.symm.trans h')
    exact ⟨rfl, Or.inl ⟨rfl, rfl⟩⟩
  · dsimp only
    by_cases hkey : sb.bot.debateKey = speech.debateKey
    · rw [if_neg (fun hc => hc hkey)]
      rcases hexp : getNextSpeaker ad with _ | expectedSpeaker
      · intro h'
        cases Option.some_inj.mp (had.symm.trans h')
        exact ⟨rfl, Or.inl ⟨rfl, rfl⟩⟩
      · dsimp only
        by_cases hturn : speech.speaker = expectedSpeaker
        · rw [if_neg (fun hc => hc hturn)]
          by_cases hshort : utf8Len (trimSpace speech.message.content) < cfg.minContentLength
          · rw [if_pos hshort]
            intro h'
            cases Option.some_inj.mp ((lookup_setDebate_self _ _ _).symm.trans h')
            exact ⟨rfl, Or.inl ⟨rfl, rfl⟩⟩
          · rw [if_neg hshort]
            by_cases hlong : cfg.maxContentLength < utf8Len (trimSpace speech.message.content)
            · rw [if_pos hlong]
              intro h'
              cases Option.some_inj.mp ((lookup_setDebate_self _ _ _).symm.trans h')
              exact ⟨rfl, Or.inl ⟨rfl, rfl⟩⟩
            · rw [if_neg hlong]
              rcases hsup : ad.supportingBot with _ | sup <;>
                rcases hop : ad.opposingBot with _ | op
              · intro h'
                cases Option.some_inj.mp ((lookup_setDebate_db _ _ _ _).symm.trans h')
                exact ⟨rfl, Or.inl ⟨rfl, rfl⟩⟩
              · intro h'
                cases Option.some_inj.mp ((lookup_setDebate_db _ _ _ _).symm.trans h')
                exact ⟨rfl, Or.inl ⟨rfl, rfl⟩⟩
              · intro h'
                cases Option.some_inj.mp ((lookup_setDebate_db _ _ _ _).symm.trans h')
                exact ⟨rfl, Or.inl ⟨rfl, rfl⟩⟩
              · dsimp only
                by_cases hwho : (speech.speaker == sup.bot.botIdentifier) = true
                · rw [if_pos hwho]
                  intro h'
                  cases Option.some_inj.mp ((lookup_setDebate_self _ _ _).symm.trans h')
                  exact ⟨rfl, Or.inl ⟨rfl, rfl⟩⟩
                · rw [if_neg hwho]
                  have hids := resolveSpeaker_opposing ad speech.speaker sb sup op
                    hsup hop hres hwho
                  have hnesup : speech.speaker ≠ sup.bot.botIdentifier := by
                    intro hc
                    exact hwho (by simp [hc])
                  by_cases hdone : ad.debate.totalRounds < ad.debate.currentRound + 1
                  · rw [if_pos hdone]
                    intro h'
                    rw [endDebate_lookup _ _ _ _ _ _ _ (lookup_setDebate_db _ _ _ _)] at h'
                    cases Option.some_inj.mp h'
                    exact ⟨rfl, Or.inr ⟨sup, op, rfl, rfl, hids.1, hnesup, rfl,
                      Or.inr ⟨hdone, rfl⟩⟩⟩
                  · rw [if_neg hdone]
                    intro h'
                    cases Option.some_inj.mp ((lookup_setDebate_self _ _ _).symm.trans h')
                    exact ⟨rfl, Or.inr ⟨sup, op, rfl, rfl, hids.1, hnesup, rfl,
                      Or.inl ⟨by omega, rfl⟩⟩⟩
        · rw [if_pos hturn]
          intro h'
          cases Option.some_inj.mp (had.symm.trans h')
          exact ⟨rfl, Or.inl ⟨rfl, rfl⟩⟩
    · rw [if_pos hkey]
      intro h'
      cases Option.some_inj.mp (had.symm.trans h')
      exact ⟨rfl, Or.inl ⟨rfl, rfl⟩⟩


/-- Claim C6 (amended): `current_round` starts at 1, never decreases across
a `HandleSpeech` step, stays unchanged when the supporting side speaks, and
while the session is `active` with `current_round ≤ total_rounds` a step
keeps the bound whenever the session stays `active` and never pushes the
round past `total_rounds + 1`; an `active` session’s round increment lands in
`completed` exactly when the new round exceeds `total_rounds`. The claim’s
global bound `current_round ≤ total_rounds + 1` fails, because speeches are
still accepted after the terminal transition. -/
theorem round_counter_facts :
    (∀ (dm : DebateManager) (topic : String) (totalRounds : Nat) (freshID : String)
       (now : Nat), (createDebate dm topic totalRounds freshID now).2.currentRound = 1) ∧
    (∀ (cfg : Config) (env : JudgeEnv) (dm : DebateManager) (speech : DebateSpeech)
       (now : Nat) (ad ad' : ActiveDebate),
       dm.lookup speech.debateID = some ad →
       (handleSpeech cfg env dm speech now).1.lookup speech.debateID = some ad' →
       ad.debate.currentRound ≤ ad'.debate.currentRound ∧
       ad'.debate.totalRounds = ad.debate.totalRounds) ∧
    (∀ (cfg : Config) (env : JudgeEnv) (dm : DebateManager) (speech : DebateSpeech)
       (now : Nat) (ad ad' : ActiveDebate) (sup : ConnectedBot),
       dm.lookup speech.debateID = some ad →
       ad.supportingBot = some sup → speech.speaker = sup.bot.botIdentifier →
       (handleSpeech cfg env dm speech now).1.lookup speech.debateID = some ad' →
       ad'.debate.currentRound = ad.debate.currentRound) ∧
    (∀ (cfg : Config) (env : JudgeEnv) (dm : DebateManager) (speech : DebateSpeech)
       (now : Nat) (ad ad' : ActiveDebate),
       dm.lookup speech.debateID = some ad →
       ad.debate.status = "active" →
       ad.debate.currentRound ≤ ad.debate.totalRounds →
       (handleSpeech cfg env dm speech now).1.lookup speech.debateID = some ad' →
       (ad'.debate.status = "active" → ad'.debate.currentRound ≤ ad'.debate.totalRounds) ∧
       ad'.debate.currentRound ≤ ad.debate.totalRounds + 1) ∧
    (∀ (cfg : Config) (env : JudgeEnv) (dm : DebateManager) (speech : DebateSpeech)
       (now : Nat) (ad ad' : ActiveDebate),
       dm.lookup speech.debateID = some ad →
       ad.debate.status = "active" →
       (handleSpeech cfg env dm speech now).1.lookup speech.debateID = some ad' →
       ad'.debate.currentRound = ad.debate.currentRound + 1 →
       (ad'.debate.status = "completed" ↔
         ad.debate.totalRounds < ad.debate.currentRound + 1)) := by
  refine ⟨?_, ?_, ?_, ?_, ?_⟩
  · intro dm topic totalRounds freshID now
    rfl
  · intro cfg env dm speech now ad ad' had h'
    rcases handleSpeech_round_status cfg env dm speech now ad had ad' h' with
      ⟨htot, hcase⟩
    refine ⟨?_, htot⟩
    rcases hcase with ⟨heq, _⟩ | ⟨_, _, _, _, _, _, heq, _⟩ <;> omega
  · intro cfg env dm speech now ad ad' sup had hsup hspeaker h'
    rcases handleSpeech_round_status cfg env dm speech now ad had ad' h' with
      ⟨_, hcase⟩
    rcases hcase with ⟨heq, _⟩ | ⟨sup', op', hsup', _, hsp', hne', _, _⟩
    · exact heq
    · rw [hsup] at hsup'
      cases Option.some_inj.mp hsup'
      exact absurd hspeaker hne'
  · intro cfg env dm speech now ad ad' had hact hbound h'
    rcases handleSpeech_round_status cfg env dm speech now ad had ad' h' with
      ⟨htot, hcase⟩
    rcases hcase with ⟨heq, hst⟩ | ⟨_, _, _, _, _, _, heq, hrest⟩
    · exact ⟨fun _ => by omega, by omega⟩
    · rcases hrest with ⟨hle, hst⟩ | ⟨hlt, hst⟩
      · exact ⟨fun _ => by omega, by omega⟩
      · refine ⟨fun hc => ?_, by omega⟩
        rw [hst] at hc
        exact absurd hc (by decide)
  · intro cfg env dm speech now ad ad' had hact h' hinc
    rcases handleSpeech_round_status cfg env dm speech now ad had ad' h' with
      ⟨htot, hcase⟩
    rcases hcase with ⟨heq, hst⟩ | ⟨_, _, _, _, _, _, heq, hrest⟩
    · omega
    · rcases hrest with ⟨hle, hst⟩ | ⟨hlt, hst⟩
      · rw [hst, hact]
        constructor
        · intro hc; exact absurd hc (by decide)
        · omega
      · rw [hst]
        simp [hlt]


/-- Counterexample to claim C6 as stated: with `total_rounds = 1`, four
accepted speeches drive `current_round` to 3 > `total_rounds` + 1, the second
round-pair being accepted after the session completed. -/
theorem round_exceeds_budget :
    ((runSpeeches cfg0 noJudge c6Manager
        [(speechAlpha, 1), (speechBeta, 2), (speechAlpha, 3), (speechBeta, 4)]).lookup
      "debate-1").map (fun ad => (ad.debate.currentRound, ad.debate.totalRounds)) =
      some (3, 1) ∧ (1 : Nat) + 1 < 3 := by
  refine ⟨by decide, by omega⟩




/-- Witness for the claim C6 theorem at concrete sessions. -/
theorem round_counter_facts_witness :
    (createDebate { } "T" 3 "debate-9" 0).2.currentRound = 1 ∧
    ((1 : Nat) ≤ c6EndSession.debate.currentRound ∧
      c6EndSession.debate.totalRounds = 1) ∧
    c6ShortSession.debate.currentRound = 1 ∧
    c6EndSession.debate.currentRound ≤ 1 + 1 ∧
    (c6EndSession.debate.status = "completed" ↔ 1 < 1 + 1) := by
  have hB := round_counter_facts.2.1 cfg0 noJudge (mkManager (mkSession "active" 1 1 [entryAlpha 1]
    "alpha-11111111")) speechBeta 9 (mkSession "active" 1 1 [entryAlpha 1]
    "alpha-11111111") c6EndSession rfl (by decide)
  have hC := round_counter_facts.2.2.1 cfg0 noJudge (mkManager (mkSession "active" 1 3 [] ""))
    shortSpeech 7 (mkSession "active" 1 3 [] "") c6ShortSession cbAlpha rfl rfl rfl
    (by decide)
  have hD := round_counter_facts.2.2.2.1 cfg0 noJudge (mkManager (mkSession "active" 1 1 [entryAlpha 1]
    "alpha-11111111")) speechBeta 9 (mkSession "active" 1 1 [entryAlpha 1]
    "alpha-11111111") c6EndSession rfl rfl (by decide) (by decide)
  have hE := round_counter_facts.2.2.2.2 cfg0 noJudge (mkManager (mkSession "active" 1 1 [entryAlpha 1]
    "alpha-11111111")) speechBeta 9 (mkSession "active" 1 1 [entryAlpha 1]
    "alpha-11111111") c6EndSession rfl rfl (by decide) (by decide)
  exact ⟨round_counter_facts.1 { } "T" 3 "debate-9" 0, ⟨hB.1, hB.2⟩, hC, hD.2, hE⟩

end BotDebate
